import Mathlib

/-!
Verification development for the profile-README generator scripts
(scripts/update-readme.js and scripts/generate-skill-radar.js).

The JavaScript sources are shallowly embedded below:
pure string templating becomes Lean string functions, the marker-based
README splice becomes a function on lists of characters (mirroring the
lazy regular-expression replacement used by the script), and the numeric
projection / color pipeline is embedded over exact numbers (ℤ / ℚ for the
integer contribution counts and language durations, ℝ for the continuous
projection and opacity math, which the script performs in IEEE doubles).
External library calls that depend on the wall clock
(DateTime.now rendering, formatDistanceToNow) and the remote AI devlog
text enter the embedding as explicit parameters, since the scripts read
them from the environment at run time.
-/

/-! ## update-readme.js : section templating -/

/-- The latest-commit record produced by fetchLatestCommit:
a message and an optional ISO date string. -/
structure Commit where
  message : String
  date : Option String
deriving DecidableEq

/-- Embedding of JavaScript String.prototype.trim on character lists:
strip leading and trailing whitespace. -/
def trimChars (s : List Char) : List Char :=
  ((s.dropWhile Char.isWhitespace).reverse.dropWhile Char.isWhitespace).reverse

/-- Embedding of generateSection from scripts/update-readme.js, as the
character list of the rendered markdown section.  The parameter fdn
models the library call formatDistanceToNow(new Date(d)) evaluated at
the current instant, so the dependence of the rendered section on the
wall clock is explicit. -/
def generateSection (fdn : String → String) (greeting nowWorking : String)
    (latestCommit : Commit) (openPRs : ℕ) (wakatime : String)
    (aiDevlog : Option String) : List Char :=
  let devlogPart :=
    match aiDevlog with
    | some d => "#### AI Daily Devlog\n\n" ++ d ++ "\n"
    | none => ""
  let dateStr :=
    match latestCommit.date with
    | some dt => fdn dt ++ " ago"
    | none => "unknown"
  trimChars ("\n" ++ greeting ++ "\n\n" ++ devlogPart
    ++ "\n- 🔭 Currently working on **" ++ nowWorking
    ++ "**\n- 📝 Latest commit: *" ++ latestCommit.message ++ "* (" ++ dateStr
    ++ ")\n- 📬 Open pull requests: **" ++ toString openPRs
    ++ "**\n- ⏱️ WakaTime (last 7 days): **" ++ wakatime ++ "**\n").data

/-! ## update-readme.js : marker-delimited README splice -/

/-- The literal start marker of the auto-generated README region. -/
def startMarkerL : List Char := "<!-- AUTO-GENERATED-START -->".data

/-- The literal end marker of the auto-generated README region. -/
def endMarkerL : List Char := "<!-- AUTO-GENERATED-END -->".data

/-- Index of the first position of s at which pat occurs as a contiguous
sublist (the semantics of a literal JavaScript regular-expression search). -/
def firstMatch (pat : List Char) : List Char → Option ℕ
  | [] => if pat.isEmpty then some 0 else none
  | c :: rest =>
    if pat.isPrefixOf (c :: rest) then some 0
    else (firstMatch pat rest).map (· + 1)

/-- Embedding of JavaScript String.prototype.includes on character lists. -/
def includes (pat s : List Char) : Bool :=
  (firstMatch pat s).isSome

/-- Embedding of the GetSubstitution processing that JavaScript
String.prototype.replace applies to a string replacement argument, for a
pattern with no capture groups: a dollar followed by another dollar
yields one literal dollar, dollar-ampersand inserts the matched
substring, dollar-backquote (character code 96) inserts the text before
the match, dollar-quote (character code 39) inserts the text after the
match, and every other dollar (including dollar-digit, since the
pattern has no groups, and dollar at the end) is taken literally. -/
def getSubstitution (matched before after : List Char) : List Char → List Char
  | [] => []
  | [c] => [c]
  | c :: d :: rest =>
    if c = '$' then
      if d = '$' then c :: getSubstitution matched before after rest
      else if d = '&' then matched ++ getSubstitution matched before after rest
      else if d = Char.ofNat 96 then before ++ getSubstitution matched before after rest
      else if d = Char.ofNat 39 then after ++ getSubstitution matched before after rest
      else c :: getSubstitution matched before after (d :: rest)
    else c :: getSubstitution matched before after (d :: rest)

/-- Embedding of existing.replace(regex, newBlock) where regex is the
lazy pattern startM[\s\S]*?endM: at the first occurrence of startM, the
region extending to the first following occurrence of endM is replaced
by the replacement string processed through GetSubstitution (with the
matched region and the surrounding text as its context). -/
def lazyReplace (startM endM new s : List Char) : List Char :=
  match firstMatch startM s with
  | none => s
  | some i =>
    match firstMatch endM (s.drop (i + startM.length)) with
    | none => s
    | some j =>
      let matchEnd := i + startM.length + j + endM.length
      let matched := (s.drop i).take (startM.length + j + endM.length)
      s.take i ++ getSubstitution matched (s.take i) (s.drop matchEnd) new
        ++ s.drop matchEnd

/-- The freshly generated marked block:
startMarker, newline, generated section, newline, endMarker. -/
def newBlock (genSection : List Char) : List Char :=
  startMarkerL ++ "\n".data ++ genSection ++ "\n".data ++ endMarkerL

/-- The synthetic prior document used by main when reading README.md
fails: the two markers separated by a newline. -/
def fallbackExisting : List Char :=
  startMarkerL ++ "\n".data ++ endMarkerL

/-- Embedding of the README update step of main in
scripts/update-readme.js: if both markers occur in the existing document,
splice the new block over the lazily matched marked region, otherwise
prepend the new block followed by a blank line. -/
def updateReadme (existing genSection : List Char) : List Char :=
  if includes startMarkerL existing && includes endMarkerL existing then
    lazyReplace startMarkerL endMarkerL (newBlock genSection) existing
  else
    newBlock genSection ++ "\n\n".data ++ existing

/-- Embedding of the full README assembly performed by main in
scripts/update-readme.js, from the fetched upstream values and the
wall-clock-derived strings (nowStr renders DateTime.now, fdn is the
relative-date formatter at the current instant) to the written document. -/
def updateReadmeMain (nowStr : String) (fdn : String → String)
    (latestCommit : Commit) (openPRs : ℕ) (wakatime : String)
    (aiDevlog : Option String) (existing : List Char) : List Char :=
  let greeting := "### Hey there! 👋 — " ++ nowStr
  let nowWorking := "Multiple AI & automation projects 🚀"
  updateReadme existing
    (generateSection fdn greeting nowWorking latestCommit openPRs wakatime aiDevlog)

/-! ## Data normalizers -/

/-- A raw WakaTime language record as it arrives in the JSON payload:
total_seconds may be absent (modelled by none). -/
structure RawLang where
  name : String
  total_seconds : Option ℚ
deriving DecidableEq

/-- A normalized language sample (name and magnitude in seconds). -/
structure Lang where
  name : String
  value : ℚ
deriving DecidableEq

/-- Embedding of the normalization step of fetchWakatimeLanguages in
scripts/generate-skill-radar.js: value is total_seconds with 0
substituted when the field is absent (the l.total_seconds or-0 default). -/
def fetchWakatimeLanguagesNormalize (langs : List RawLang) : List Lang :=
  langs.map (fun l => { name := l.name, value := l.total_seconds.getD 0 })

/-- A raw contribution-day record from the GraphQL payload:
contributionCount may be absent (modelled by none). -/
structure DayRec where
  date : String
  contributionCount : Option ℤ
deriving DecidableEq

/-- One raw week of the contribution calendar. -/
structure WeekRec where
  contributionDays : List DayRec
deriving DecidableEq

/-- A normalized calendar sample as built by fetchContributionCalendar:
week index, day-of-week index, date, and the count taken verbatim from
the record (the source applies no default to contributionCount). -/
structure CalSample where
  weekIndex : ℕ
  dayIndex : ℕ
  date : String
  count : Option ℤ
deriving DecidableEq

/-- Embedding of the normalization step of fetchContributionCalendar in
scripts/update-readme.js: map each week (with its index) to its day
records and flatten.  The parameter getUTCDay models the library call
new Date(d.date).getUTCDay(). -/
def fetchContributionCalendarNormalize (getUTCDay : String → ℕ)
    (weeks : List WeekRec) : List CalSample :=
  (weeks.enum.map (fun p =>
    p.2.contributionDays.map (fun d =>
      { weekIndex := p.1, dayIndex := getUTCDay d.date,
        date := d.date, count := d.contributionCount }))).flatten

/-! ## update-readme.js (globe renderer) : color and projection math -/

/-- Embedding of lerp from scripts/update-readme.js. -/
def lerp (a b t : ℝ) : ℝ :=
  a + (b - a) * t

/-- Embedding of colorForCount from scripts/update-readme.js.  The
arguments are the integer contribution counts produced by the calendar
normalizer; the interpolation parameter t is computed over ℝ. -/
noncomputable def colorForCount (count maxCount : ℤ) : String :=
  if count ≤ 0 then "rgba(0,0,0,0)"
  else
    let t := Real.sqrt (min 1 ((count : ℝ) / max 1 (maxCount : ℝ)))
    let r := round (lerp 197 251 t)
    let g := round (lerp 118 159 t)
    let b := round (lerp 246 22 t)
    "rgb(" ++ toString r ++ "," ++ toString g ++ "," ++ toString b ++ ")"

/-- Embedding of orthographicProject from scripts/update-readme.js:
degree arguments are converted to radians and projected orthographically
around the scene center. -/
noncomputable def orthographicProject (lonDeg latDeg radius cx cy : ℝ) : ℝ × ℝ :=
  let lon := lonDeg * Real.pi / 180
  let lat := latDeg * Real.pi / 180
  let x := radius * Real.cos lat * Real.sin lon
  let y := -radius * Real.sin lat
  (cx + x, cy + y)

/-! ## update-readme.js (globe renderer) : calendar-to-sphere mapping -/

/-- A well-formed normalized contribution sample consumed by the sphere
mapper (week index, day index 0..6, integer count). -/
structure ContribDay where
  weekIndex : ℕ
  dayIndex : ℕ
  count : ℤ
deriving DecidableEq

/-- One projected globe point with its visual attributes. -/
structure SpherePoint where
  lon : ℝ
  lat : ℝ
  size : ℝ
  opacity : ℝ
  color : String

/-- The maxCount reduction of mapCalendarToSphere:
contrib.reduce(max of d.count, 0). -/
def maxCountOf (contrib : List ContribDay) : ℤ :=
  contrib.foldl (fun m d => max m d.count) 0

/-- The lastWeekIndex reduction of mapCalendarToSphere:
contrib.reduce(max of d.weekIndex, 0). -/
def lastWeekIndexOf (contrib : List ContribDay) : ℕ :=
  contrib.foldl (fun m d => max m d.weekIndex) 0

/-- The loop body of mapCalendarToSphere: longitude from the reindexed
week, latitude from the day of week, size with square-root bonus,
magnitude-proportional opacity, and interpolated color. -/
noncomputable def calendarPoint (firstWeek : ℕ) (maxCount : ℤ) (maxWeeks : ℕ)
    (d : ContribDay) : SpherePoint :=
  let relWeek : ℕ := d.weekIndex - firstWeek
  { lon := -180 + (360 * (relWeek : ℝ)) / ((maxWeeks : ℝ) - 1)
    lat := -55 + (110 * (d.dayIndex : ℝ)) / 6
    size := 1.2 + (if 0 < d.count then min 2.5 (Real.sqrt (d.count : ℝ) * 0.5) else 0)
    opacity := if 0 < d.count then min 0.95 (0.2 + (d.count : ℝ) / max 3 (maxCount : ℝ)) else 0
    color := colorForCount d.count maxCount }

/-- Embedding of mapCalendarToSphere from scripts/update-readme.js.
firstWeek uses truncating ℕ subtraction, which agrees with the source
Math.max(0, lastWeekIndex - (maxWeeks - 1)); the loop with its continue
statement is the filter-then-map below. -/
noncomputable def mapCalendarToSphere (contrib : List ContribDay) (maxWeeks : ℕ) :
    List SpherePoint :=
  if contrib.isEmpty then []
  else
    let maxCount := maxCountOf contrib
    let lastWeekIndex := lastWeekIndexOf contrib
    let firstWeek := lastWeekIndex - (maxWeeks - 1)
    (contrib.filter (fun d => decide (firstWeek ≤ d.weekIndex))).map
      (calendarPoint firstWeek maxCount maxWeeks)

/-! ## generate-skill-radar.js : polar layout and top-K selection -/

/-- Embedding of polarToCartesian from scripts/generate-skill-radar.js. -/
noncomputable def polarToCartesian (cx cy r angleRad : ℝ) : ℝ × ℝ :=
  (cx + r * Real.cos angleRad, cy + r * Real.sin angleRad)

/-- Embedding of the numeric part of buildPolygonPoints from
scripts/generate-skill-radar.js (the vertex list before the one-decimal
string formatting): the radius fraction is guarded to 0 when maxValue is
0, and the vertices are evenly spaced starting at angle -π/2. -/
noncomputable def polygonVertices (languages : List Lang) (maxValue : ℚ)
    (cx cy radius : ℝ) : List (ℝ × ℝ) :=
  let count := languages.length
  languages.enum.map (fun p =>
    let frac : ℝ := if maxValue = 0 then 0 else ((p.2.value : ℝ) / (maxValue : ℝ))
    let r := radius * frac
    let angle := -(Real.pi / 2) + (2 * Real.pi * (p.1 : ℝ)) / (count : ℝ)
    polarToCartesian cx cy r angle)

/-- Math.max over the values of a nonempty language list, as computed by
main in scripts/generate-skill-radar.js. -/
def maxValueOf : List Lang → ℚ
  | [] => 0
  | l :: ls => ls.foldl (fun m x => max m x.value) l.value

/-- Embedding of the top-K selection of main in
scripts/generate-skill-radar.js: stable sort by value descending (the
comparator b.value - a.value under the stable Array.prototype.sort), then
take the first six. -/
def topLangs (rawLangs : List Lang) : List Lang :=
  (rawLangs.insertionSort (fun a b => b.value ≤ a.value)).take 6

/-! ## Fallback scenes and run outcomes -/

/-- The dark background color constant of scripts/update-readme.js. -/
def BG_DARK : String := "#19000e"

/-- The fallback scene written by main in scripts/update-readme.js when
the contribution calendar fetch throws: a background rectangle and a
caption reading No contribution data. -/
def fallbackGlobeSVG : String :=
  "<svg xmlns='http://www.w3.org/2000/svg' width='500' height='300'><rect width='100%' height='100%' fill='"
    ++ BG_DARK
    ++ "'/><text x='50%' y='50%' text-anchor='middle' dominant-baseline='middle' fill='#fff'>No contribution data</text></svg>"

/-- The placeholder scene written by main in
scripts/generate-skill-radar.js when no WakaTime languages are available:
a single caption reading No WakaTime data. -/
def noWakatimeSVG : String :=
  "<svg xmlns='http://www.w3.org/2000/svg' width='500' height='380'><text x='50%' y='50%' dominant-baseline='middle' text-anchor='middle' font-family='sans-serif' font-size='16'>No WakaTime data</text></svg>"

/-- The observable outcome of one renderer run: the artifact content
written and whether the process exits successfully. -/
structure RunOutcome where
  artifact : String
  exitSuccess : Bool
deriving DecidableEq

/-- Embedding of the control flow of main in scripts/update-readme.js
around the contribution-calendar fetch: a fetch error is caught, the
fallback scene is written and the run returns normally; on success the
normal scene (render, abstracting buildGlobeSVG) is written. -/
def globeMain (fetched : Except String (List ContribDay))
    (render : List ContribDay → String) : RunOutcome :=
  match fetched with
  | .error _ => { artifact := fallbackGlobeSVG, exitSuccess := true }
  | .ok contrib => { artifact := render contrib, exitSuccess := true }

/-- Embedding of the control flow of main in
scripts/generate-skill-radar.js: an empty language list yields the
placeholder scene and a normal return; otherwise the radar scene (render,
abstracting the SVG assembly) is written for the top languages. -/
def radarMain (rawLangs : List Lang) (render : List Lang → String) : RunOutcome :=
  if rawLangs.isEmpty then { artifact := noWakatimeSVG, exitSuccess := true }
  else { artifact := render (topLangs rawLangs), exitSuccess := true }

/-! ## Helper lemmas -/

theorem firstMatch_isSome_append (pat u v : List Char) :
    (firstMatch pat (u ++ (pat ++ v))).isSome = true := by
  induction u with
  | nil =>
    simp only [List.nil_append]
    cases h : pat ++ v with
    | nil =>
      have hp : pat = [] := by
        cases pat with
        | nil => rfl
        | cons a l => simp at h
      subst hp
      simp [firstMatch]
    | cons c rest =>
      have hpre : pat.isPrefixOf (c :: rest) = true := by
        rw [ List.isPrefixOf_iff_prefix, ← h]
        exact List.prefix_append _ _
      simp [firstMatch, hpre]
  | cons a u ih =>
    simp only [List.cons_append]
    by_cases hp : pat.isPrefixOf (a :: (u ++ (pat ++ v))) = true
    · simp [firstMatch, hp]
    · obtain ⟨i, hi⟩ := Option.isSome_iff_exists.mp ih
      simp [firstMatch, hp, hi]

theorem foldl_max_le {α β : Type} [LinearOrder α] (f : β → α) (l : List β) (a c : α)
    (ha : a ≤ c) (h : ∀ x ∈ l, f x ≤ c) :
    l.foldl (fun m x => max m (f x)) a ≤ c := by
  induction l generalizing a with
  | nil => simpa using ha
  | cons b l ih =>
    simp only [List.foldl_cons]
    exact ih (max a (f b)) (max_le ha (h b (by simp)))
      (fun x hx => h x (by simp [hx]))

theorem init_le_foldl_max {α β : Type} [LinearOrder α] (f : β → α) (l : List β) (a : α) :
    a ≤ l.foldl (fun m x => max m (f x)) a := by
  induction l generalizing a with
  | nil => simp
  | cons b l ih =>
    simp only [List.foldl_cons]
    exact le_trans (le_max_left a (f b)) (ih (max a (f b)))

theorem le_foldl_max {α β : Type} [LinearOrder α] (f : β → α) (l : List β) (a : α)
    (x : β) (hx : x ∈ l) :
    f x ≤ l.foldl (fun m x => max m (f x)) a := by
  induction l generalizing a with
  | nil => simp at hx
  | cons b l ih =>
    simp only [List.foldl_cons]
    rcases List.mem_cons.mp hx with h | h
    · subst h
      exact le_trans (le_max_right a (f x)) (init_le_foldl_max f l (max a (f x)))
    · exact ih (max a (f b)) h

theorem foldl_max_eq {α β : Type} [LinearOrder α] (f : β → α) (l : List β) (a c : α)
    (ha : a ≤ c) (h : ∀ x ∈ l, f x ≤ c) (hx : ∃ x ∈ l, f x = c) :
    l.foldl (fun m x => max m (f x)) a = c := by
  obtain ⟨x, hxl, hfx⟩ := hx
  exact le_antisymm (foldl_max_le f l a c ha h) (hfx ▸ le_foldl_max f l a x hxl)

theorem getSubstitution_no_dollar (matched before after r : List Char)
    (h : ('$' : Char) ∉ r) :
    getSubstitution matched before after r = r := by
  induction r with
  | nil => rfl
  | cons c rest ih =>
    have hc : c ≠ '$' := by
      intro hcc
      subst hcc
      exact h (List.mem_cons_self _ _)
    have hrest : ('$' : Char) ∉ rest := fun hr => h (List.mem_cons_of_mem c hr)
    cases rest with
    | nil => rfl
    | cons d rest2 =>
      simp only [getSubstitution, if_neg hc]
      rw [ih hrest]

theorem newBlock_no_dollar (sect : List Char) (hds : ('$' : Char) ∉ sect) :
    ('$' : Char) ∉ newBlock sect := by
  intro hmem
  simp only [newBlock, List.mem_append] at hmem
  rcases hmem with ((((h | h) | h) | h) | h)
  · exact absurd h (by decide)
  · exact absurd h (by decide)
  · exact hds h
  · exact absurd h (by decide)
  · exact absurd h (by decide)

theorem foldl_max_value_zero (l : List Lang) (a : ℚ) (ha : a = 0)
    (h : ∀ x ∈ l, x.value = 0) :
    l.foldl (fun m x => max m x.value) a = 0 := by
  induction l generalizing a with
  | nil => simpa using ha
  | cons b t ih =>
    simp only [List.foldl_cons]
    exact ih (max a b.value) (by rw [ha, h b (by simp), max_self])
      (fun x hx => h x (by simp [hx]))


/-! ## Claim C2 : marker-replacement frame property -/

/-- C2.  For every existing README containing a marked region — written
here through its canonical decomposition p, m, q, where p is the text
before the first start marker (hfirst states that the first start-marker
match is at position p.length) and m is the old region body up to the
first following end marker (hend) — the README update step preserves p
and q byte-for-byte and replaces only the marked region: the new
interior is the generated block as processed by GetSubstitution (with
the old region as the matched text and p, q as its context), and when
the generated section contains no dollar character the interior is the
generated block itself. -/
theorem updateReadme_frame (sect p m q : List Char)
    (hfirst : firstMatch startMarkerL (p ++ startMarkerL ++ m ++ endMarkerL ++ q)
      = some p.length)
    (hend : firstMatch endMarkerL (m ++ endMarkerL ++ q) = some m.length) :
    updateReadme (p ++ startMarkerL ++ m ++ endMarkerL ++ q) sect
      = p ++ getSubstitution (startMarkerL ++ m ++ endMarkerL) p q (newBlock sect) ++ q ∧
    (('$' : Char) ∉ sect →
      updateReadme (p ++ startMarkerL ++ m ++ endMarkerL ++ q) sect
        = p ++ newBlock sect ++ q) := by
  have hassoc : p ++ startMarkerL ++ m ++ endMarkerL ++ q
      = (p ++ startMarkerL) ++ (m ++ endMarkerL ++ q) := by
    simp [List.append_assoc]
  have hdrop : (p ++ startMarkerL ++ m ++ endMarkerL ++ q).drop
      (p.length + startMarkerL.length) = m ++ endMarkerL ++ q := by
    rw [hassoc, List.drop_left' (by simp [List.length_append])]
  have hinc1 : includes startMarkerL (p ++ startMarkerL ++ m ++ endMarkerL ++ q) = true := by
    rw [includes, hfirst]
    rfl
  have hinc2 : includes endMarkerL (p ++ startMarkerL ++ m ++ endMarkerL ++ q) = true := by
    rw [includes]
    have h2 : p ++ startMarkerL ++ m ++ endMarkerL ++ q
        = (p ++ startMarkerL ++ m) ++ (endMarkerL ++ q) := by
      simp [List.append_assoc]
    rw [h2]
    exact firstMatch_isSome_append endMarkerL (p ++ startMarkerL ++ m) q
  have htake : (p ++ startMarkerL ++ m ++ endMarkerL ++ q).take p.length = p := by
    have h3 : p ++ startMarkerL ++ m ++ endMarkerL ++ q
        = p ++ (startMarkerL ++ (m ++ (endMarkerL ++ q))) := by
      simp [List.append_assoc]
    rw [h3, List.take_left]
  have hdrop2 : (p ++ startMarkerL ++ m ++ endMarkerL ++ q).drop
      (p.length + startMarkerL.length + m.length + endMarkerL.length) = q := by
    exact List.drop_left' (by simp [List.length_append]; omega)
  have hmid : (p ++ startMarkerL ++ m ++ endMarkerL ++ q).drop p.length
      = (startMarkerL ++ m ++ endMarkerL) ++ q := by
    have h5 : p ++ startMarkerL ++ m ++ endMarkerL ++ q
        = p ++ ((startMarkerL ++ m ++ endMarkerL) ++ q) := by
      simp [List.append_assoc]
    rw [h5, List.drop_left]
  have hmatched : ((p ++ startMarkerL ++ m ++ endMarkerL ++ q).drop p.length).take
      (startMarkerL.length + m.length + endMarkerL.length)
      = startMarkerL ++ m ++ endMarkerL := by
    rw [hmid]
    exact List.take_left' (by simp [List.length_append]; omega)
  have hmain : updateReadme (p ++ startMarkerL ++ m ++ endMarkerL ++ q) sect
      = p ++ getSubstitution (startMarkerL ++ m ++ endMarkerL) p q (newBlock sect) ++ q := by
    simp only [updateReadme, hinc1, hinc2, Bool.and_self, if_true, lazyReplace,
      hfirst, hdrop, hend, htake, hdrop2, hmatched]
  refine ⟨hmain, fun hds => ?_⟩
  rw [hmain, getSubstitution_no_dollar _ _ _ _ (newBlock_no_dollar sect hds)]

/-- Witness for C2 at a concrete document:
prior text, an old marked region, trailing text, and a dollar-free
generated section. -/
theorem updateReadme_frame_witness :
    firstMatch startMarkerL
        ("# Title\n".data ++ startMarkerL ++ "old body".data ++ endMarkerL ++ "\ntail".data)
      = some ("# Title\n".data).length ∧
    firstMatch endMarkerL ("old body".data ++ endMarkerL ++ "\ntail".data)
      = some ("old body".data).length ∧
    (('$' : Char) ∉ "fresh".data) ∧
    updateReadme
        ("# Title\n".data ++ startMarkerL ++ "old body".data ++ endMarkerL ++ "\ntail".data)
        "fresh".data
      = "# Title\n".data ++ newBlock "fresh".data ++ "\ntail".data :=
  ⟨by decide, by decide, by decide,
    (updateReadme_frame "fresh".data "# Title\n".data "old body".data "\ntail".data
      (by decide) (by decide)).2 (by decide)⟩

/-! ## Claim C10 : behavior when README.md cannot be read -/

/-- Counterexample to C10 as stated: a generated section containing the
dollar-dollar escape is not written verbatim — String.prototype.replace
collapses it to a single dollar — so the written document is not the
start marker, newline, section, newline, end marker; the second conjunct
exhibits what is written instead. -/
theorem updateReadme_dollar_escape_cex :
    updateReadme fallbackExisting "a$$b".data
      ≠ startMarkerL ++ "\n".data ++ "a$$b".data ++ "\n".data ++ endMarkerL ∧
    updateReadme fallbackExisting "a$$b".data
      = startMarkerL ++ "\n".data ++ "a$b".data ++ "\n".data ++ endMarkerL := by
  constructor
  · decide
  · decide

/-- C10 (amended).  When reading README.md fails, main substitutes the
synthetic two-marker document and the update step writes the generated
block as processed by GetSubstitution (the whole synthetic document
being the matched region, with empty surrounding text); whenever the
generated section contains no dollar character this is exactly the
start marker, a newline, the section, a newline, and the end marker. -/
theorem updateReadme_missing_readme (sect : List Char) :
    updateReadme fallbackExisting sect
      = getSubstitution fallbackExisting [] [] (newBlock sect) ∧
    (('$' : Char) ∉ sect →
      updateReadme fallbackExisting sect
        = startMarkerL ++ "\n".data ++ sect ++ "\n".data ++ endMarkerL) := by
  have h1 : firstMatch startMarkerL fallbackExisting = some 0 := by decide
  have h2 : firstMatch endMarkerL (fallbackExisting.drop (0 + startMarkerL.length))
      = some 1 := by decide
  have h3 : includes startMarkerL fallbackExisting = true := by decide
  have h4 : includes endMarkerL fallbackExisting = true := by decide
  have h5 : fallbackExisting.drop (0 + startMarkerL.length + 1 + endMarkerL.length)
      = [] := by decide
  have h6 : (fallbackExisting.drop 0).take (startMarkerL.length + 1 + endMarkerL.length)
      = fallbackExisting := by decide
  have h7 : fallbackExisting.take 0 = [] := by decide
  have hmain : updateReadme fallbackExisting sect
      = getSubstitution fallbackExisting [] [] (newBlock sect) := by
    simp only [updateReadme, h3, h4, Bool.and_self, if_true, lazyReplace, h1, h2, h5, h6,
      h7, List.nil_append, List.append_nil]
  refine ⟨hmain, fun hds => ?_⟩
  rw [hmain, getSubstitution_no_dollar _ _ _ _ (newBlock_no_dollar sect hds), newBlock]

/-- Witness for the amended C10 at a dollar-free generated section. -/
theorem updateReadme_missing_readme_witness :
    (('$' : Char) ∉ "hello".data) ∧
    updateReadme fallbackExisting "hello".data
      = startMarkerL ++ "\n".data ++ "hello".data ++ "\n".data ++ endMarkerL :=
  ⟨by decide, (updateReadme_missing_readme "hello".data).2 (by decide)⟩

/-! ## Claim C9 : fallback scenes on upstream failure -/

/-- C9.  When the contribution-calendar fetch fails, the globe run
writes the minimal fallback scene (background plus a no-data caption)
and exits successfully; when no WakaTime languages are available, the
radar run writes its placeholder scene and exits successfully. -/
theorem fallbackScene_on_upstream_failure (e : String)
    (render₁ : List ContribDay → String) (render₂ : List Lang → String) :
    globeMain (Except.error e) render₁
      = { artifact := fallbackGlobeSVG, exitSuccess := true } ∧
    radarMain [] render₂
      = { artifact := noWakatimeSVG, exitSuccess := true } :=
  ⟨rfl, rfl⟩

/-! ## Claim C7 : orthographic projection -/

/-- C7.  The orthographic projection returns
(cx + R·cos(lat)·sin(lon), cy − R·sin(lat)) for the radian angles
derived from its degree arguments, and at lon = 0, lat = 0 it returns
exactly the scene center (cx, cy). -/
theorem orthographicProject_spec (lonDeg latDeg radius cx cy : ℝ) :
    orthographicProject lonDeg latDeg radius cx cy
      = (cx + radius * Real.cos (latDeg * Real.pi / 180)
            * Real.sin (lonDeg * Real.pi / 180),
         cy - radius * Real.sin (latDeg * Real.pi / 180)) ∧
    orthographicProject 0 0 radius cx cy = (cx, cy) := by
  constructor
  · simp [orthographicProject, sub_eq_add_neg, neg_mul]
  · simp [orthographicProject]

/-! ## Claim C1 : run-to-run determinism -/

/-- Counterexample to C1 as stated: two runs with identical upstream
data (same commit, PR count, WakaTime string, devlog) but different
wall-clock instants produce different README documents, because main
embeds the rendered current time in the greeting line. -/
theorem updateReadmeMain_not_time_invariant :
    updateReadmeMain "Oct 10, 2026, 9:00 AM" (fun _ => "1 day")
        { message := "fix build", date := some "2026-10-09T08:00:00Z" }
        2 "10 hrs 5 mins" none fallbackExisting
      ≠ updateReadmeMain "Oct 11, 2026, 9:00 AM" (fun _ => "1 day")
        { message := "fix build", date := some "2026-10-09T08:00:00Z" }
        2 "10 hrs 5 mins" none fallbackExisting := by
  decide

/-- C1 (amended).  The embedded pipeline is deterministic once all of
its run inputs are fixed: equal upstream data together with an equal
rendered clock string, an equal relative-date formatter and an equal AI
devlog yield byte-identical README output. -/
theorem updateReadmeMain_deterministic
    (n₁ n₂ : String) (f₁ f₂ : String → String) (c₁ c₂ : Commit) (p₁ p₂ : ℕ)
    (w₁ w₂ : String) (a₁ a₂ : Option String) (e₁ e₂ : List Char)
    (hn : n₁ = n₂) (hf : ∀ s, f₁ s = f₂ s) (hc : c₁ = c₂) (hp : p₁ = p₂)
    (hw : w₁ = w₂) (ha : a₁ = a₂) (he : e₁ = e₂) :
    updateReadmeMain n₁ f₁ c₁ p₁ w₁ a₁ e₁ = updateReadmeMain n₂ f₂ c₂ p₂ w₂ a₂ e₂ := by
  have hff : f₁ = f₂ := funext hf
  subst hn hff hc hp hw ha he
  rfl

/-- Witness for the amended C1 at concrete run inputs. -/
theorem updateReadmeMain_deterministic_witness :
    "T" = "T" ∧ (∀ s, (fun _ : String => "1 day") s = (fun _ : String => "1 day") s) ∧
    updateReadmeMain "T" (fun _ => "1 day") { message := "m", date := some "D" } 1 "w" none
        fallbackExisting
      = updateReadmeMain "T" (fun _ => "1 day") { message := "m", date := some "D" } 1 "w" none
        fallbackExisting :=
  ⟨rfl, fun _ => rfl,
    updateReadmeMain_deterministic "T" "T" (fun _ => "1 day") (fun _ => "1 day")
      { message := "m", date := some "D" } { message := "m", date := some "D" } 1 1 "w" "w"
      none none fallbackExisting fallbackExisting rfl (fun _ => rfl) rfl rfl rfl rfl rfl⟩

/-! ## Claim C4 : color endpoints -/

/-- C4.  For every maxCount, a zero count is rendered fully transparent;
for every positive maxCount, a count equal to maxCount is rendered
exactly as the orange endpoint color rgb(251,159,22). -/
theorem colorForCount_endpoints (m : ℤ) :
    colorForCount 0 m = "rgba(0,0,0,0)" ∧
    (0 < m → colorForCount m m = "rgb(251,159,22)") := by
  constructor
  · simp [colorForCount]
  · intro hm
    have hm' : ¬ m ≤ 0 := not_le.mpr hm
    have h1 : (1 : ℝ) ≤ (m : ℝ) := by exact_mod_cast hm
    have hne : (m : ℝ) ≠ 0 := by positivity
    have ht : Real.sqrt (min 1 ((m : ℝ) / max 1 (m : ℝ))) = 1 := by
      rw [max_eq_right h1, div_self hne, min_self, Real.sqrt_one]
    have hr : round ((197 : ℝ) + (251 - 197) * 1) = (251 : ℤ) := by norm_num [round_eq]
    have hg : round ((118 : ℝ) + (159 - 118) * 1) = (159 : ℤ) := by norm_num [round_eq]
    have hb : round ((246 : ℝ) + (22 - 246) * 1) = (22 : ℤ) := by norm_num [round_eq]
    simp only [colorForCount, if_neg hm', ht, lerp, hr, hg, hb]
    decide

/-- Witness for C4 at maxCount 3. -/
theorem colorForCount_endpoints_witness :
    colorForCount 0 3 = "rgba(0,0,0,0)" ∧ (0 : ℤ) < 3 ∧
    colorForCount 3 3 = "rgb(251,159,22)" :=
  ⟨(colorForCount_endpoints 3).1, by decide, (colorForCount_endpoints 3).2 (by decide)⟩

/-! ## Claim C6 : top-K category selection -/

/-- C6.  The category scale mapper retains the top six categories in
descending magnitude order: on magnitudes [10, 50, 30, 5, 20, 15, 1]
exactly the magnitude-1 category is dropped; ties keep input order
(second conjunct); and in general the retained list is sorted descending
by magnitude and is a subpermutation of the input. -/
theorem topLangs_spec :
    topLangs [⟨"A", 10⟩, ⟨"B", 50⟩, ⟨"C", 30⟩, ⟨"D", 5⟩, ⟨"E", 20⟩, ⟨"F", 15⟩, ⟨"G", 1⟩]
      = [⟨"B", 50⟩, ⟨"C", 30⟩, ⟨"E", 20⟩, ⟨"F", 15⟩, ⟨"A", 10⟩, ⟨"D", 5⟩] ∧
    topLangs [⟨"A", 5⟩, ⟨"B", 5⟩, ⟨"C", 7⟩] = [⟨"C", 7⟩, ⟨"A", 5⟩, ⟨"B", 5⟩] ∧
    ∀ l : List Lang,
      (topLangs l).Sorted (fun a b => b.value ≤ a.value) ∧ (topLangs l).Subperm l := by
  refine ⟨by decide, by decide, fun l => ⟨?_, ?_⟩⟩
  · haveI : IsTotal Lang (fun a b => b.value ≤ a.value) :=
      ⟨fun a b => le_total b.value a.value⟩
    haveI : IsTrans Lang (fun a b => b.value ≤ a.value) :=
      ⟨fun a b c hab hbc => le_trans hbc hab⟩
    simp only [topLangs]
    exact List.Pairwise.sublist (List.take_sublist 6 _) (List.sorted_insertionSort _ l)
  · simp only [topLangs]
    exact ((List.take_sublist 6 _).subperm).trans (List.perm_insertionSort _ l).subperm

/-! ## Claim C5 : calendar window selection -/

/-- C5.  If W is the highest week index present in a contribution list,
the sphere mapper retains exactly the samples whose week index is at
least firstWeek = W - (maxWeeks - 1) (so with all indices at most W, the
window [firstWeek, W]), maps them with weeks reindexed relative to
firstWeek, and every retained reindexed week lies in 0..maxWeeks-1.
With weeks 0..99 and maxWeeks 52 this retains weeks 48..99 reindexed to
0..51. -/
theorem mapCalendarToSphere_window (contrib : List ContribDay) (W maxWeeks : ℕ)
    (hub : ∀ d ∈ contrib, d.weekIndex ≤ W)
    (hatt : ∃ d ∈ contrib, d.weekIndex = W) :
    mapCalendarToSphere contrib maxWeeks
      = (contrib.filter (fun d => decide (W - (maxWeeks - 1) ≤ d.weekIndex))).map
          (calendarPoint (W - (maxWeeks - 1)) (maxCountOf contrib) maxWeeks) ∧
    ∀ d ∈ contrib.filter (fun d => decide (W - (maxWeeks - 1) ≤ d.weekIndex)),
      d.weekIndex - (W - (maxWeeks - 1)) ≤ maxWeeks - 1 := by
  have hlast : lastWeekIndexOf contrib = W := by
    obtain ⟨d, hd, hdW⟩ := hatt
    exact foldl_max_eq (fun d => d.weekIndex) contrib 0 W (Nat.zero_le W) hub ⟨d, hd, hdW⟩
  have hne : contrib.isEmpty = false := by
    obtain ⟨d, hd, _⟩ := hatt
    cases contrib with
    | nil => simp at hd
    | cons a l => rfl
  constructor
  · simp only [mapCalendarToSphere, lastWeekIndexOf] at *
    simp only [hne, Bool.false_eq_true, if_false, hlast]
  · intro d hd
    have hW : d.weekIndex ≤ W := hub d (List.mem_of_mem_filter hd)
    omega

/-- Witness for C5 at a singleton list attaining week 99 with window 52:
firstWeek is 48 and the reindexed week bound is 51. -/
theorem mapCalendarToSphere_window_witness :
    (∀ d ∈ [(⟨99, 0, 5⟩ : ContribDay)], d.weekIndex ≤ 99) ∧
    (∃ d ∈ [(⟨99, 0, 5⟩ : ContribDay)], d.weekIndex = 99) ∧
    (mapCalendarToSphere [⟨99, 0, 5⟩] 52
       = ([(⟨99, 0, 5⟩ : ContribDay)].filter (fun d => decide (48 ≤ d.weekIndex))).map
           (calendarPoint 48 (maxCountOf [⟨99, 0, 5⟩]) 52) ∧
     ∀ d ∈ [(⟨99, 0, 5⟩ : ContribDay)].filter (fun d => decide (48 ≤ d.weekIndex)),
       d.weekIndex - 48 ≤ 51) :=
  ⟨by decide, by decide,
    mapCalendarToSphere_window [⟨99, 0, 5⟩] 99 52 (by decide) (by decide)⟩

/-! ## Claim C8 : all-zero magnitudes -/

/-- C8.  On input whose magnitudes are all zero, every globe point gets
the base size 1.2 (zero bonus) and opacity exactly 0, and — the radar
maximum of an all-zero list being 0 — the division guard places every
radar polygon vertex exactly at the center (radius 0).  In this exact
real-valued embedding the derived values are the stated finite minima,
so none is NaN or infinite. -/
theorem allZero_min_size_opacity (contrib : List ContribDay) (maxWeeks : ℕ)
    (langs : List Lang) (cx cy radius : ℝ)
    (hz : ∀ d ∈ contrib, d.count = 0) (hl : ∀ l ∈ langs, l.value = 0) :
    (∀ p ∈ mapCalendarToSphere contrib maxWeeks, p.size = 1.2 ∧ p.opacity = 0) ∧
    (∀ v ∈ polygonVertices langs (maxValueOf langs) cx cy radius, v = (cx, cy)) := by
  constructor
  · intro p hp
    simp only [mapCalendarToSphere] at hp
    split at hp
    · simp at hp
    · obtain ⟨d, hd, hpd⟩ := List.mem_map.mp hp
      have hdc : d.count = 0 := hz d (List.mem_of_mem_filter hd)
      subst hpd
      constructor
      · simp [calendarPoint, hdc]
      · simp [calendarPoint, hdc]
  · intro v hv
    have hmax : maxValueOf langs = 0 := by
      cases langs with
      | nil => rfl
      | cons a l =>
        have ha : a.value = 0 := hl a (by simp)
        exact foldl_max_value_zero l a.value ha (fun x hx => hl x (by simp [hx]))
    rw [hmax] at hv
    simp only [polygonVertices] at hv
    obtain ⟨pair, hpair, hvp⟩ := List.mem_map.mp hv
    subst hvp
    simp [polarToCartesian]

/-- Witness for C8 at one zero-count day and one zero-duration language. -/
theorem allZero_min_size_opacity_witness :
    (∀ d ∈ [(⟨0, 0, 0⟩ : ContribDay)], d.count = 0) ∧
    (∀ l ∈ [(⟨"Python", 0⟩ : Lang)], l.value = 0) ∧
    ((∀ p ∈ mapCalendarToSphere [⟨0, 0, 0⟩] 52, p.size = 1.2 ∧ p.opacity = 0) ∧
     (∀ v ∈ polygonVertices [⟨"Python", 0⟩] (maxValueOf [⟨"Python", 0⟩]) 0 0 1,
        v = (0, 0))) :=
  ⟨by decide, by decide,
    allZero_min_size_opacity [⟨0, 0, 0⟩] 52 [⟨"Python", 0⟩] 0 0 1 (by decide) (by decide)⟩

/-! ## Claim C3 : normalization of missing and zero fields -/

/-- Counterexample to C3 as stated: a day record whose contributionCount
is absent is normalized to a sample whose magnitude is still absent —
the calendar normalizer applies no zero default to contributionCount —
rather than to magnitude zero. -/
theorem calendarNormalize_missing_count_cex :
    (fetchContributionCalendarNormalize (fun _ => 0)
        [{ contributionDays := [{ date := "2024-01-01", contributionCount := none }] }]).map
      CalSample.count = [none] ∧
    ([none] : List (Option ℤ)) ≠ [some 0] := by
  constructor
  · rfl
  · decide

/-- C3 (amended).  The WakaTime normalizer substitutes magnitude 0 for a
missing or zero total_seconds; the calendar normalizer instead passes
contributionCount through verbatim, so a zero-valued count becomes
magnitude zero but a missing count stays missing. -/
theorem normalizer_zero_magnitude (langs : List RawLang) (r : RawLang) (hr : r ∈ langs)
    (h0 : r.total_seconds = none ∨ r.total_seconds = some 0)
    (getUTCDay : String → ℕ) (weeks : List WeekRec) (s : CalSample)
    (hs : s ∈ fetchContributionCalendarNormalize getUTCDay weeks) :
    ({ name := r.name, value := 0 } : Lang) ∈ fetchWakatimeLanguagesNormalize langs ∧
    ∃ w ∈ weeks, ∃ d ∈ w.contributionDays, s.count = d.contributionCount := by
  constructor
  · have hmem : ({ name := r.name, value := r.total_seconds.getD 0 } : Lang)
        ∈ fetchWakatimeLanguagesNormalize langs :=
      List.mem_map.mpr ⟨r, hr, rfl⟩
    rcases h0 with h | h <;> simpa [h] using hmem
  · simp only [fetchContributionCalendarNormalize] at hs
    rw [List.mem_flatten] at hs
    obtain ⟨l, hl, hsl⟩ := hs
    rw [List.mem_map] at hl
    obtain ⟨⟨wi, w⟩, hw, hlw⟩ := hl
    subst hlw
    rw [List.mem_map] at hsl
    obtain ⟨d, hd, hds⟩ := hsl
    obtain ⟨hlt, heq⟩ := List.mem_enum hw
    refine ⟨w, ?_, d, hd, ?_⟩
    · have hmem : weeks[wi] ∈ weeks := List.getElem_mem hlt
      rw [← heq] at hmem
      exact hmem
    · rw [← hds]

/-- Witness for the amended C3: a language with absent total_seconds and
a day record with a zero count. -/
theorem normalizer_zero_magnitude_witness :
    ((⟨"Py", none⟩ : RawLang) ∈ [(⟨"Py", none⟩ : RawLang)]) ∧
    ((⟨"Py", none⟩ : RawLang).total_seconds = none ∨
      (⟨"Py", none⟩ : RawLang).total_seconds = some 0) ∧
    ((⟨0, 3, "2024-01-02", some 0⟩ : CalSample)
        ∈ fetchContributionCalendarNormalize (fun _ => 3)
            [⟨[⟨"2024-01-02", some 0⟩]⟩]) ∧
    (({ name := "Py", value := 0 } : Lang) ∈ fetchWakatimeLanguagesNormalize [⟨"Py", none⟩] ∧
     ∃ w ∈ [(⟨[⟨"2024-01-02", some 0⟩]⟩ : WeekRec)], ∃ d ∈ w.contributionDays,
       (⟨0, 3, "2024-01-02", some 0⟩ : CalSample).count = d.contributionCount) :=
  ⟨by decide, Or.inl rfl, by decide,
    normalizer_zero_magnitude [⟨"Py", none⟩] ⟨"Py", none⟩ (by decide) (Or.inl rfl)
      (fun _ => 3) [⟨[⟨"2024-01-02", some 0⟩]⟩] ⟨0, 3, "2024-01-02", some 0⟩ (by decide)⟩
